import Mathlib

/-!
Shallow embedding of the entitlement core of the `utm-subscription-backend`
repository: the `UserSubscription`, `Device` and `LicenseKey` models
(`models/*.js`), the paywall routes (`routes/paywall.js`) and the Stripe
webhook handlers (`routes/webhooks.js`).

Conventions of the embedding:
* JavaScript `Date` values are integer Unix timestamps in milliseconds
  (`Int`); `new Date()` becomes an explicit `now : Int` parameter.
* Nullable database columns become `Option` fields.  The stored timestamp
  columns hold non-empty ISO strings in the database, so JavaScript
  truthiness checks (`!this.trialEnd`) correspond to `Option.isNone`.
* The Supabase store is a `List` of rows in creation order; queries ordered
  by `created_at` descending with `limit(1)` return the last matching
  element of the list; `update(...).eq('id', x)` rewrites every row whose
  `id` matches (ids are unique in the database, freshly generated here).
* Fallible operations return `Except String`, carrying the thrown error
  message; an `Except.error` result performs no state change (the state is
  only carried in the `Except.ok` payload).
* The HMAC-SHA256 digests used for device fingerprints are modelled as an
  abstract injective keyed digest; since the code only ever compares
  digests for equality, the identity function is observationally faithful.
-/

/-- One millisecond-count day, `1000 * 60 * 60 * 24` from the source. -/
def msPerDay : Int := 86400000

/-- `Math.ceil(a / b)` for integer `a` and positive integer `b`:
for every integer `a` and `b > 0`, `⌈a / b⌉ = ⌊(a + b - 1) / b⌋`. -/
def ceilDivInt (a b : Int) : Int := Int.ediv (a + b - 1) b

/-- A row of the `user_subscriptions` table together with the fields the
`UserSubscription` model (`models/UserSubscription.js`) carries. -/
structure UserSubscription where
  id : Nat
  uid : Option String
  deviceId : Option Nat
  stripeCustomerId : Option String
  stripeSubscriptionId : Option String
  planId : Option String
  status : String
  trialStart : Option Int
  trialEnd : Option Int
deriving DecidableEq, Repr

namespace UserSubscription

/-- `UserSubscription.isActive`: `this.status === 'active'`. -/
def isActive (s : UserSubscription) : Bool :=
  s.status == "active"

/-- `UserSubscription.isTrial`: false when `status !== 'trial'` or
`trial_end` is null, otherwise `trialEnd > now`. -/
def isTrial (s : UserSubscription) (now : Int) : Bool :=
  if s.status != "trial" then false
  else
    match s.trialEnd with
    | none => false
    | some te => now < te

/-- `UserSubscription.isTrialExpired`: false when `status !== 'trial'` or
`trial_end` is null, otherwise `trialEnd <= now`. -/
def isTrialExpired (s : UserSubscription) (now : Int) : Bool :=
  if s.status != "trial" then false
  else
    match s.trialEnd with
    | none => false
    | some te => te ≤ now

/-- `UserSubscription.getSubscriptionStatus`, the entitlement resolver
surfaced by `GET /check-subscription` and `GET /my-subscription`. -/
def getSubscriptionStatus (s : UserSubscription) (now : Int) : String :=
  if s.isActive then "active"
  else if s.isTrial now then "trial"
  else if s.status == "expired" || s.isTrialExpired now then "expired"
  else "none"

/-- `UserSubscription.getTrialDaysRemaining`: 0 unless `isTrial()`, else
`Math.max(0, Math.ceil((trialEnd - now) / msPerDay))`. -/
def getTrialDaysRemaining (s : UserSubscription) (now : Int) : Int :=
  if s.isTrial now then
    match s.trialEnd with
    | none => 0
    | some te => max 0 (ceilDivInt (te - now) msPerDay)
  else 0

end UserSubscription

/-- A row of the `license_keys` table with the fields the `LicenseKey`
model (`models/LicenseKey.js`) carries. -/
structure LicenseKey where
  id : Nat
  planId : String
  expiresAt : Option Int
  singleUse : Bool
  boundUid : Option String
  boundDeviceId : Option Nat
  redeemedAt : Option Int
deriving DecidableEq, Repr

namespace LicenseKey

/-- `LicenseKey.isRedeemed`: `!!this.redeemedAt`. -/
def isRedeemed (k : LicenseKey) : Bool :=
  k.redeemedAt.isSome

/-- `LicenseKey.isExpired`: false when `expires_at` is null (lifetime key),
otherwise `expiresAt <= now`. -/
def isExpired (k : LicenseKey) (now : Int) : Bool :=
  match k.expiresAt with
  | none => false
  | some e => e ≤ now

/-- `LicenseKey.isValidForRedemption`: `!isRedeemed() && !isExpired()`,
a derived predicate, not a stored column. -/
def isValidForRedemption (k : LicenseKey) (now : Int) : Bool :=
  !k.isRedeemed && !k.isExpired now

/-- The unconditional `update({bound_uid, bound_device_id, redeemed_at})`
call inside `LicenseKey.redeem`: a plain row rewrite keyed by `id`, with
no compare-and-set on `redeemed_at`. -/
def redeemWrite (k : LicenseKey) (now : Int) (bu : Option String)
    (bd : Option Nat) : LicenseKey :=
  { k with boundUid := bu, boundDeviceId := bd, redeemedAt := some now }

/-- `LicenseKey.redeem(boundUid, boundDeviceId)`: throws when already
redeemed, then when expired; otherwise writes the two binding columns and
stamps `redeemed_at = now`. -/
def redeem (k : LicenseKey) (now : Int) (bu : Option String)
    (bd : Option Nat) : Except String LicenseKey :=
  if k.isRedeemed then Except.error "License key has already been redeemed"
  else if k.isExpired now then Except.error "License key has expired"
  else Except.ok (k.redeemWrite now bu bd)

/-- `LicenseKey.revoke`: unconditionally writes
`redeemed_at = now, bound_uid = null, bound_device_id = null`. -/
def revoke (k : LicenseKey) (now : Int) : LicenseKey :=
  { k with redeemedAt := some now, boundUid := none, boundDeviceId := none }

/-- `LicenseKey.getBoundInfo`: the bound uid if any, else the bound device
id if any, else null. -/
def getBoundInfo (k : LicenseKey) : Option (String ⊕ Nat) :=
  match k.boundUid with
  | some u => some (Sum.inl u)
  | none =>
    match k.boundDeviceId with
    | some d => some (Sum.inr d)
    | none => none

end LicenseKey

/-- A row of the `devices` table with the fields the `Device` model
(`models/Device.js`) carries.  `deviceId` holds the keyed digest of the
caller-supplied fingerprint. -/
structure Device where
  id : Nat
  deviceId : String
  linkedUid : Option String
  trialStart : Option Int
  trialEnd : Option Int
  subscriptionStatus : String
deriving DecidableEq, Repr

namespace Device

/-- `Device.hashDeviceId`: HMAC-SHA256 keyed digest of the fingerprint.
The digest is modelled abstractly as an injective function; the code only
ever compares digests for equality, so the identity function is
observationally faithful. -/
def hashDeviceId (fingerprint : String) : String := fingerprint

/-- `Device.isTrialActive`: false when `subscription_status !== 'trial'` or
`trial_end` is null, otherwise `trialEnd > now`. -/
def isTrialActive (d : Device) (now : Int) : Bool :=
  if d.subscriptionStatus != "trial" then false
  else
    match d.trialEnd with
    | none => false
    | some te => now < te

/-- `Device.getTrialDaysRemaining`: 0 unless `isTrialActive()`, else
`Math.max(0, Math.ceil((trialEnd - now) / msPerDay))`. -/
def getTrialDaysRemaining (d : Device) (now : Int) : Int :=
  if d.isTrialActive now then
    match d.trialEnd with
    | none => 0
    | some te => max 0 (ceilDivInt (te - now) msPerDay)
  else 0

/-- The response shape of `Device.toPublicJSON`. -/
structure PublicView where
  guestId : Nat
  trialStart : Option Int
  trialEnd : Option Int
  status : String
  isTrialActiveFlag : Bool
  trialDaysRemaining : Int
deriving DecidableEq, Repr

/-- `Device.toPublicJSON`. -/
def toPublicJSON (d : Device) (now : Int) : PublicView :=
  { guestId := d.id
    trialStart := d.trialStart
    trialEnd := d.trialEnd
    status := d.subscriptionStatus
    isTrialActiveFlag := d.isTrialActive now
    trialDaysRemaining := d.getTrialDaysRemaining now }

end Device

/-! ## Store helpers

Supabase queries ordered by `created_at` descending with `limit(1)` return
the most recently created matching row; with rows kept in creation order
that is the last matching element of the list. -/

/-- Last element of `l` satisfying `p` (the most recently created matching
row of an append-ordered table). -/
def lastMatch? {α : Type} (p : α → Bool) : List α → Option α
  | [] => none
  | x :: xs =>
    match lastMatch? p xs with
    | some y => some y
    | none => if p x then some x else none

/-- Largest element of a list of naturals, 0 for the empty list. -/
def maxNat : List Nat → Nat
  | [] => 0
  | n :: ns => max n (maxNat ns)

/-- A fresh id for a new row: one more than every id in use. -/
def freshId (ids : List Nat) : Nat := maxNat ids + 1

/-- `update(...).eq('id', i)` on the `user_subscriptions` table: rewrite
every row whose `id` is `i` by `g` (ids are unique, so at most one row). -/
def updateById (i : Nat) (g : UserSubscription → UserSubscription)
    (l : List UserSubscription) : List UserSubscription :=
  l.map fun s => if s.id = i then g s else s

/-! ## Billing Event Processor (`routes/webhooks.js`) -/

/-- The fields of a `checkout.session.completed` event object that
`handleCheckoutSessionCompleted` reads: `metadata.uid`,
`metadata.guest_id`, `session.customer`, `session.subscription`. -/
structure CheckoutSession where
  uid : Option String
  guestId : Option Nat
  customer : Option String
  subscription : Option String
deriving DecidableEq, Repr

/-- The `subscriptionData` object of `handleCheckoutSessionCompleted`
applied through `UserSubscription.update`: a partial update that writes
`stripe_customer_id`, `stripe_subscription_id`, `plan_id = null` and
`status = 'active'` and leaves every other column untouched. -/
def applyCheckout (cust subId : Option String) (s : UserSubscription) :
    UserSubscription :=
  { s with stripeCustomerId := cust, stripeSubscriptionId := subId,
           planId := none, status := "active" }

/-- The row `UserSubscription.create({uid, ...subscriptionData})` inserts
on the authenticated branch of `handleCheckoutSessionCompleted`. -/
def newUidSub (u : String) (cust subId : Option String) (i : Nat) :
    UserSubscription :=
  { id := i, uid := some u, deviceId := none, stripeCustomerId := cust,
    stripeSubscriptionId := subId, planId := none, status := "active",
    trialStart := none, trialEnd := none }

/-- The row `UserSubscription.create({device_id, ...subscriptionData})`
inserts on the guest branch of `handleCheckoutSessionCompleted`. -/
def newDeviceSub (d : Nat) (cust subId : Option String) (i : Nat) :
    UserSubscription :=
  { id := i, uid := none, deviceId := some d, stripeCustomerId := cust,
    stripeSubscriptionId := subId, planId := none, status := "active",
    trialStart := none, trialEnd := none }

/-- `handleCheckoutSessionCompleted`: no metadata identity is a warning
no-op; an authenticated `uid` updates (or creates) the most recent
subscription row for that uid; a `guest_id` resolves the device by primary
id and updates (or creates) the most recent row for that device;
a missing device is a silent no-op. -/
def handleCheckoutSessionCompleted (devices : List Device)
    (store : List UserSubscription) (sess : CheckoutSession) :
    List UserSubscription :=
  match sess.uid with
  | some u =>
    match lastMatch? (fun s => s.uid == some u) store with
    | some s => updateById s.id (applyCheckout sess.customer sess.subscription) store
    | none =>
      store ++ [newUidSub u sess.customer sess.subscription
        (freshId (store.map UserSubscription.id))]
  | none =>
    match sess.guestId with
    | some g =>
      match lastMatch? (fun d => d.id == g) devices with
      | some d =>
        match lastMatch? (fun s => s.deviceId == some d.id) store with
        | some s => updateById s.id (applyCheckout sess.customer sess.subscription) store
        | none =>
          store ++ [newDeviceSub d.id sess.customer sess.subscription
            (freshId (store.map UserSubscription.id))]
      | none => store
    | none => store

/-- The inline Stripe-status switch of `handleSubscriptionUpdated`
(`routes/webhooks.js`). -/
def mapSubscriptionStatus (s : String) : String :=
  match s with
  | "active" => "active"
  | "past_due" => "past_due"
  | "canceled" => "canceled"
  | "cancelled" => "canceled"
  | "incomplete" => "expired"
  | "incomplete_expired" => "expired"
  | "trialing" => "trial"
  | "unpaid" => "expired"
  | _ => "expired"

/-- `handleSubscriptionUpdated`: locate the row by external subscription
id (missing row is a logged no-op) and set its status to the mapped
external status. -/
def handleSubscriptionUpdated (store : List UserSubscription)
    (subId : String) (extStatus : String) : List UserSubscription :=
  match lastMatch? (fun s => s.stripeSubscriptionId == some subId) store with
  | none => store
  | some s =>
    updateById s.id (fun r => { r with status := mapSubscriptionStatus extStatus }) store

/-- `handleSubscriptionCreated`: reads the price id (missing price is a
no-op), resolves the plan from the catalog (missing plan is a no-op),
locates the row by the external *customer* id, and writes
`stripe_subscription_id`, `plan_id` and `status = 'active'` — the external
status carried by the event is never read.  A missing row is a logged
no-op. -/
def handleSubscriptionCreated (store : List UserSubscription)
    (subId : String) (customerId : String) (priceId : Option String)
    (_extStatus : String) (plans : List (String × String)) :
    List UserSubscription :=
  match priceId with
  | none => store
  | some pid =>
    match lastMatch? (fun pl => pl.1 == pid) plans with
    | none => store
    | some pl =>
      match lastMatch? (fun s => s.stripeCustomerId == some customerId) store with
      | none => store
      | some s =>
        updateById s.id (fun r =>
          { r with stripeSubscriptionId := some subId,
                   planId := some pl.2, status := "active" }) store

/-! ## Trial Manager (`POST /start-guest-trial`, `routes/paywall.js`) -/

/-- The persistent state the paywall routes read and write. -/
structure PaywallState where
  devices : List Device
  subs : List UserSubscription
deriving DecidableEq, Repr

/-- `POST /start-guest-trial`: hash the fingerprint and look the device
up; if found return its public view unchanged (no write); otherwise create
a device with a 3-day trial and a matching `user_subscriptions` row, and
return the new device's public view. -/
def startTrial (now : Int) (st : PaywallState) (fingerprint : String) :
    PaywallState × Device.PublicView :=
  match lastMatch? (fun d => d.deviceId == Device.hashDeviceId fingerprint)
      st.devices with
  | some d => (st, d.toPublicJSON now)
  | none =>
    let d : Device :=
      { id := freshId (st.devices.map Device.id)
        deviceId := Device.hashDeviceId fingerprint
        linkedUid := none
        trialStart := some now
        trialEnd := some (now + 3 * msPerDay)
        subscriptionStatus := "trial" }
    let sub : UserSubscription :=
      { id := freshId (st.subs.map UserSubscription.id)
        uid := none, deviceId := some d.id
        stripeCustomerId := none, stripeSubscriptionId := none
        planId := none, status := "trial"
        trialStart := some now, trialEnd := some (now + 3 * msPerDay) }
    ({ devices := st.devices ++ [d], subs := st.subs ++ [sub] },
      d.toPublicJSON now)

/-! ## License redemption route (`POST /redeem-license`) -/

/-- The binding decision of `POST /redeem-license` followed by
`LicenseKey.redeem`: an authenticated `uid` is bound (and any supplied
`guest_id` ignored); otherwise the guest device is resolved by primary id
and its id bound; with neither identity the request is rejected. -/
def redeemLicenseRoute (devices : List Device) (uid : Option String)
    (guestId : Option Nat) (now : Int) (k : LicenseKey) :
    Except String LicenseKey :=
  if !k.isValidForRedemption now then
    Except.error (if k.isRedeemed then "License key has already been redeemed"
      else "License key has expired")
  else
    match uid with
    | some u => k.redeem now (some u) none
    | none =>
      match guestId with
      | some g =>
        match lastMatch? (fun d => d.id == g) devices with
        | some d => k.redeem now none (some d.id)
        | none => Except.error "Invalid guest ID"
      | none => Except.error "Either authentication or guest_id required"

/-! ## License key generation (`LicenseKey.generateKey`) -/

/-- Uppercase hexadecimal digit, as produced by
`randomBytes(..).toString('hex').toUpperCase()`. -/
def hexDigit (k : Nat) : Char :=
  match k with
  | 0 => '0' | 1 => '1' | 2 => '2' | 3 => '3' | 4 => '4'
  | 5 => '5' | 6 => '6' | 7 => '7' | 8 => '8' | 9 => '9'
  | 10 => 'A' | 11 => 'B' | 12 => 'C' | 13 => 'D' | 14 => 'E'
  | _ => 'F'

/-- The 4 uppercase hex characters of one segment,
`crypto.randomBytes(2).toString('hex').toUpperCase()`. -/
def toHex4 (n : Nat) : String :=
  String.mk [hexDigit (n / 4096 % 16), hexDigit (n / 256 % 16),
             hexDigit (n / 16 % 16), hexDigit (n % 16)]

/-- The random component drawn by `LicenseKey.generateKey`: three
independent 2-byte draws of `crypto.randomBytes(2)`. -/
def KeyRandomSpace : Type := Fin 65536 × Fin 65536 × Fin 65536

instance : Fintype KeyRandomSpace :=
  instFintypeProd (Fin 65536) (Fin 65536 × Fin 65536)

/-- `LicenseKey.generateKey`: `UTM-` followed by three 4-hex-character
segments joined by `-`. -/
def generateKey (r : KeyRandomSpace) : String :=
  "UTM-" ++ toHex4 r.1 ++ "-" ++ toHex4 r.2.1 ++ "-" ++ toHex4 r.2.2

/-- The characters `randomBytes(..).toString('hex').toUpperCase()` can
produce. -/
def upperHexChars : List Char :=
  ['0', '1', '2', '3', '4', '5', '6', '7', '8', '9', 'A', 'B', 'C', 'D',
   'E', 'F']

/-! ## Concurrency model for `POST /redeem-license`

Each request loads the row (`LicenseKey.getByKey`), validity-checks the
loaded snapshot (`isValidForRedemption`, and `redeem`'s own re-check on
the same in-memory object) and then issues a plain `update` keyed only by
`id` — there is no conditional update on `redeemed_at` being null.  The
interleaving below is therefore permitted by the code: both requests load
and check the row before either write lands. -/

/-- Two overlapping redemption requests against one `license_keys` row,
interleaved as load A, load B, check A, check B, write A, write B.
Returns whether each request reported success, and the final row. -/
def interleavedDoubleRedeem (k : LicenseKey) (now1 now2 : Int)
    (bu1 bu2 : Option String) (bd1 bd2 : Option Nat) :
    Bool × Bool × LicenseKey :=
  let okA := k.isValidForRedemption now1
  let okB := k.isValidForRedemption now2
  let k1 := if okA then k.redeemWrite now1 bu1 bd1 else k
  let k2 := if okB then k.redeemWrite now2 bu2 bd2 else k1
  (okA, okB, k2)

/-! ## Operation sequences over one license-key row -/

/-- The operations of the service that write `license_keys` binding
columns: `POST /redeem-license` (`redeemLicenseRoute`) and
`POST /admin/revoke-license` (`LicenseKey.revoke`).  Key creation inserts
both binding columns as null. -/
inductive LicenseOp where
  | redeemOp (devices : List Device) (uid : Option String)
      (guestId : Option Nat) (now : Int)
  | revokeOp (now : Int)

/-- Apply one operation to a key row; a thrown error leaves the row
unchanged. -/
def applyLicenseOp (k : LicenseKey) : LicenseOp → LicenseKey
  | .redeemOp devices uid guestId now =>
    match redeemLicenseRoute devices uid guestId now k with
    | .ok k2 => k2
    | .error _ => k
  | .revokeOp now => k.revoke now

/-- Run a sequence of operations over one key row. -/
def runLicenseOps (k : LicenseKey) (ops : List LicenseOp) : LicenseKey :=
  ops.foldl applyLicenseOp k

/-- At most one of `bound_uid` and `bound_device_id` is non-null. -/
def atMostOneBound (k : LicenseKey) : Prop :=
  k.boundUid = none ∨ k.boundDeviceId = none
theorem lastMatch?_append_single {α : Type} (p : α → Bool) (l : List α)
    (x : α) :
    lastMatch? p (l ++ [x]) =
      if p x then some x else lastMatch? p l := by
  induction l with
  | nil => simp [lastMatch?]
  | cons a as ih =>
    simp only [List.cons_append, lastMatch?, List.append_eq]
    rw [ih]
    by_cases hx : p x
    · simp [hx]
    · simp only [if_neg hx]

theorem lastMatch?_map {α : Type} (p : α → Bool) (f : α → α)
    (hf : ∀ a, p (f a) = p a) (l : List α) :
    lastMatch? p (l.map f) = (lastMatch? p l).map f := by
  induction l with
  | nil => simp [lastMatch?]
  | cons a as ih =>
    simp only [List.map_cons, lastMatch?, ih]
    cases lastMatch? p as with
    | none =>
      simp only [Option.map_none]
      rw [hf a]
      by_cases ha : p a <;> simp [ha]
    | some y => simp

theorem lastMatch?_mem {α : Type} (p : α → Bool) (l : List α) (a : α)
    (h : lastMatch? p l = some a) : a ∈ l ∧ p a = true := by
  induction l with
  | nil => simp [lastMatch?] at h
  | cons x xs ih =>
    simp only [lastMatch?] at h
    cases hx : lastMatch? p xs with
    | some y =>
      rw [hx] at h
      obtain ⟨hm, hp⟩ := ih (by rw [hx, ← h])
      exact ⟨List.mem_cons_of_mem x hm, hp⟩
    | none =>
      rw [hx] at h
      by_cases hpx : p x
      · simp [hpx] at h
        exact ⟨by simp [← h], by rw [← h]; exact hpx⟩
      · simp [hpx] at h

theorem mem_le_maxNat (n : Nat) (l : List Nat) (h : n ∈ l) :
    n ≤ maxNat l := by
  induction l with
  | nil => simp at h
  | cons m ms ih =>
    rcases List.mem_cons.mp h with rfl | hm
    · exact le_max_left _ _
    · exact le_trans (ih hm) (le_max_right _ _)

theorem freshId_not_mem (n : Nat) (ids : List Nat) (h : n ∈ ids) :
    n ≠ freshId ids := by
  have := mem_le_maxNat n ids h
  unfold freshId
  omega

theorem updateById_idem (i : Nat) (g : UserSubscription → UserSubscription)
    (hid : ∀ s, (g s).id = s.id) (hgg : ∀ s, g (g s) = g s)
    (l : List UserSubscription) :
    updateById i g (updateById i g l) = updateById i g l := by
  induction l with
  | nil => rfl
  | cons s ss ih =>
    simp only [updateById, List.map_cons] at ih ⊢
    rw [ih]
    by_cases hs : s.id = i
    · simp [hs, hid, hgg]
    · simp [hs]

theorem updateById_eq_self (i : Nat)
    (g : UserSubscription → UserSubscription)
    (l : List UserSubscription)
    (h : ∀ s ∈ l, s.id = i → g s = s) :
    updateById i g l = l := by
  induction l with
  | nil => rfl
  | cons s ss ih =>
    have ih2 := ih fun t ht => h t (List.mem_cons_of_mem s ht)
    simp only [updateById, List.map_cons] at ih2 ⊢
    rw [ih2]
    by_cases hs : s.id = i
    · rw [if_pos hs, h s (List.mem_cons_self s ss) hs]
    · rw [if_neg hs]


theorem hexDigit_mem_upperHex (n : Nat) : hexDigit (n % 16) ∈ upperHexChars := by
  have h : n % 16 < 16 := Nat.mod_lt _ (by norm_num)
  set m := n % 16 with hm
  interval_cases m <;> decide

/-! ## Claim theorems -/

/-- C1 counterexample: a record whose stored status is `past_due` resolves
to `none`, not to the stored `past_due` status the claim requires. -/
theorem C1_counterexample :
    UserSubscription.getSubscriptionStatus
      { id := 1, uid := some "user_1", deviceId := none,
        stripeCustomerId := none, stripeSubscriptionId := none,
        planId := none, status := "past_due", trialStart := none,
        trialEnd := none } 0 ≠ "past_due" ∧
    UserSubscription.getSubscriptionStatus
      { id := 1, uid := some "user_1", deviceId := none,
        stripeCustomerId := none, stripeSubscriptionId := none,
        planId := none, status := "past_due", trialStart := none,
        trialEnd := none } 0 = "none" := by
  constructor
  · decide
  · decide

/-- C1 (amended): `getSubscriptionStatus` does not pass `past_due` or
`canceled` through; both fall into the final `else` and resolve to `none`
at every query time. -/
theorem C1_pastDue_canceled_resolve_none (s : UserSubscription) (now : Int)
    (h : s.status = "past_due" ∨ s.status = "canceled") :
    s.getSubscriptionStatus now = "none" := by
  rcases h with h | h <;>
    simp [UserSubscription.getSubscriptionStatus, UserSubscription.isActive,
      UserSubscription.isTrial, UserSubscription.isTrialExpired, h]

/-- Witness for C1: a concrete `canceled` record resolves to `none`. -/
theorem C1_witness :
    UserSubscription.getSubscriptionStatus
      { id := 2, uid := none, deviceId := some 7,
        stripeCustomerId := some "cus_9", stripeSubscriptionId := some "sub_9",
        planId := some "pro", status := "canceled", trialStart := some 0,
        trialEnd := some 259200000 } 5 = "none" :=
  C1_pastDue_canceled_resolve_none
    { id := 2, uid := none, deviceId := some 7,
      stripeCustomerId := some "cus_9", stripeSubscriptionId := some "sub_9",
      planId := some "pro", status := "canceled", trialStart := some 0,
      trialEnd := some 259200000 } 5 (Or.inr rfl)

/-- C2 counterexample: `revoke` on an already-redeemed key rewrites
`redeemed_at` (from 100 to 200), so `redeemed_at` is not write-once. -/
theorem C2_counterexample :
    (LicenseKey.revoke
      { id := 1, planId := "pro", expiresAt := none, singleUse := true,
        boundUid := some "user_1", boundDeviceId := none,
        redeemedAt := some 100 } 200).redeemedAt ≠
    LicenseKey.redeemedAt
      { id := 1, planId := "pro", expiresAt := none, singleUse := true,
        boundUid := some "user_1", boundDeviceId := none,
        redeemedAt := some 100 } := by
  decide

/-- C2 (amended): `redeem` on a key with `redeemed_at` set always fails
with `AlreadyRedeemed` and performs no state change, regardless of
`single_use` (the flag is never consulted); but `redeemed_at` is not
write-once: `revoke` unconditionally overwrites it with the current
timestamp and nulls both bindings, even on an already-redeemed or
already-revoked key. -/
theorem C2_redeem_fails_on_redeemed :
    (∀ (k : LicenseKey) (now : Int) (bu : Option String) (bd : Option Nat)
        (t : Int), k.redeemedAt = some t →
      k.redeem now bu bd =
        Except.error "License key has already been redeemed") ∧
    (∀ (k : LicenseKey) (now : Int),
      (k.revoke now).redeemedAt = some now ∧
      (k.revoke now).boundUid = none ∧ (k.revoke now).boundDeviceId = none) := by
  constructor
  · intro k now bu bd t ht
    simp [LicenseKey.redeem, LicenseKey.isRedeemed, ht]
  · intro k now
    exact ⟨rfl, rfl, rfl⟩

/-- Witness for C2: a redeemed single-use=false key concretely fails. -/
theorem C2_witness :
    LicenseKey.redeem
      { id := 3, planId := "pro", expiresAt := none, singleUse := false,
        boundUid := none, boundDeviceId := some 4, redeemedAt := some 50 }
      60 (some "user_2") none =
      Except.error "License key has already been redeemed" :=
  C2_redeem_fails_on_redeemed.1
    { id := 3, planId := "pro", expiresAt := none, singleUse := false,
      boundUid := none, boundDeviceId := some 4, redeemedAt := some 50 }
    60 (some "user_2") none 50 rfl

/-- C7 counterexample: the random component of a generated key is three
independent 2-byte draws, a space of exactly `2^48` values — far below the
`2^96` the claim requires. -/
theorem C7_counterexample :
    Fintype.card KeyRandomSpace = 2 ^ 48 ∧
    ¬ (2 ^ 96 ≤ Fintype.card KeyRandomSpace) := by
  have h : Fintype.card KeyRandomSpace = 2 ^ 48 := by
    show Fintype.card (Fin 65536 × Fin 65536 × Fin 65536) = 2 ^ 48
    simp only [Fintype.card_prod, Fintype.card_fin]
    norm_num
  refine ⟨h, ?_⟩
  rw [h]
  norm_num

/-- C7 (amended): the random component of `generateKey` is drawn from a
space of exactly `2^48` values (48 bits, not ≥ 96), and every generated
key is `UTM-` followed by three dash-separated segments of four uppercase
hexadecimal (hence uppercase alphanumeric) characters. -/
theorem C7_keyspace_and_format :
    Fintype.card KeyRandomSpace = 2 ^ 48 ∧
    ∀ r : KeyRandomSpace,
      generateKey r =
        "UTM-" ++ toHex4 r.1 ++ "-" ++ toHex4 r.2.1 ++ "-" ++ toHex4 r.2.2 ∧
      ∀ n : Nat, (toHex4 n).length = 4 ∧
        ∀ c ∈ (toHex4 n).toList, c ∈ upperHexChars := by
  refine ⟨?_, ?_⟩
  · show Fintype.card (Fin 65536 × Fin 65536 × Fin 65536) = 2 ^ 48
    simp only [Fintype.card_prod, Fintype.card_fin]
    norm_num
  · intro r
    refine ⟨rfl, ?_⟩
    intro n
    constructor
    · rfl
    · intro c hc
      simp only [toHex4, String.toList, List.mem_cons, List.not_mem_nil,
        or_false] at hc
      rcases hc with rfl | rfl | rfl | rfl <;> exact hexDigit_mem_upperHex _

/-- C8 counterexample: a record with stored status `active` and a
`trial_end` one day in the future gets `trial_days_remaining = 0` from the
resolver, while the claimed formula `max(0, ceil((trial_end - now)/1d))`
gives 1 — the formula only holds for records in an active trial. -/
theorem C8_counterexample :
    UserSubscription.getTrialDaysRemaining
      { id := 1, uid := some "user_1", deviceId := none,
        stripeCustomerId := none, stripeSubscriptionId := none,
        planId := none, status := "active", trialStart := some 0,
        trialEnd := some 86400000 } 0 = 0 ∧
    max 0 (ceilDivInt (86400000 - 0) msPerDay) = 1 ∧ (0 : Int) ≠ 1 := by
  refine ⟨?_, ?_, by decide⟩
  · decide
  · decide

/-- C8 (amended): `trial_days_remaining` equals
`max(0, ceil((trial_end - now) / 1 day))` exactly when the record is in an
active trial (`status = 'trial'` and `now < trial_end`); every other
record gets 0, even with `trial_end` in the future.  The spec's resolver
scenario holds: `trial_start = 0`, `trial_end = 3d`, queried at `1d` gives
status `trial` with 2 days remaining, and at `4d` gives `expired` with 0
days remaining. -/
theorem C8_trialDaysRemaining :
    (∀ (s : UserSubscription) (now te : Int), s.status = "trial" →
      s.trialEnd = some te → now < te →
      s.getTrialDaysRemaining now = max 0 (ceilDivInt (te - now) msPerDay)) ∧
    (∀ (s : UserSubscription) (now : Int), s.isTrial now = false →
      s.getTrialDaysRemaining now = 0) ∧
    (UserSubscription.getSubscriptionStatus
      { id := 1, uid := none, deviceId := some 3,
        stripeCustomerId := none, stripeSubscriptionId := none,
        planId := none, status := "trial", trialStart := some 0,
        trialEnd := some 259200000 } 86400000 = "trial" ∧
     UserSubscription.getTrialDaysRemaining
      { id := 1, uid := none, deviceId := some 3,
        stripeCustomerId := none, stripeSubscriptionId := none,
        planId := none, status := "trial", trialStart := some 0,
        trialEnd := some 259200000 } 86400000 = 2 ∧
     UserSubscription.getSubscriptionStatus
      { id := 1, uid := none, deviceId := some 3,
        stripeCustomerId := none, stripeSubscriptionId := none,
        planId := none, status := "trial", trialStart := some 0,
        trialEnd := some 259200000 } 345600000 = "expired" ∧
     UserSubscription.getTrialDaysRemaining
      { id := 1, uid := none, deviceId := some 3,
        stripeCustomerId := none, stripeSubscriptionId := none,
        planId := none, status := "trial", trialStart := some 0,
        trialEnd := some 259200000 } 345600000 = 0) := by
  refine ⟨?_, ?_, by decide, by decide, by decide, by decide⟩
  · intro s now te hst hte hnow
    simp [UserSubscription.getTrialDaysRemaining, UserSubscription.isTrial,
      hst, hte, hnow]
  · intro s now h
    simp [UserSubscription.getTrialDaysRemaining, h]

/-- Witness for C8: the formula conjunct applied to a concrete mid-trial
record. -/
theorem C8_witness :
    UserSubscription.getTrialDaysRemaining
      { id := 9, uid := some "user_9", deviceId := none,
        stripeCustomerId := none, stripeSubscriptionId := none,
        planId := none, status := "trial", trialStart := some 0,
        trialEnd := some 259200000 } 86400000 =
      max 0 (ceilDivInt (259200000 - 86400000) msPerDay) :=
  C8_trialDaysRemaining.1
    { id := 9, uid := some "user_9", deviceId := none,
      stripeCustomerId := none, stripeSubscriptionId := none,
      planId := none, status := "trial", trialStart := some 0,
      trialEnd := some 259200000 } 86400000 259200000 rfl rfl (by decide)

/-- C9: the redemption path has no compare-and-set — each request
validity-checks its loaded snapshot and then issues an unconditional
update keyed by `id`.  In the interleaving where both requests load and
check the row before either write lands, both report success, and the
second write silently overwrites the first binding; the required outcome
of exactly one success and one `AlreadyRedeemed` does not hold. -/
theorem C9_bothSucceed :
    interleavedDoubleRedeem
      { id := 1, planId := "pro", expiresAt := none, singleUse := true,
        boundUid := none, boundDeviceId := none, redeemedAt := none }
      10 11 (some "user_a") (some "user_b") none none =
      (true, true,
        { id := 1, planId := "pro", expiresAt := none, singleUse := true,
          boundUid := some "user_b", boundDeviceId := none,
          redeemedAt := some 11 }) := by
  decide

/-- C3 counterexample: a `customer.subscription.created` event whose
external status is `canceled`, for a store whose only row carries external
subscription id `sub_1` and customer id `cus_1`.  The claim's mapping
table and subscription-id lookup require a no-op (no row has the event's
subscription id `sub_2`), and in any case a `canceled` internal status;
the code instead locates the row by customer id and forces
`status = 'active'`. -/
theorem C3_counterexample :
    handleSubscriptionCreated
      [{ id := 1, uid := some "u1", deviceId := none,
         stripeCustomerId := some "cus_1", stripeSubscriptionId := some "sub_1",
         planId := none, status := "trial", trialStart := some 0,
         trialEnd := some 259200000 }]
      "sub_2" "cus_1" (some "price_1") "canceled" [("price_1", "pro")] =
      [{ id := 1, uid := some "u1", deviceId := none,
         stripeCustomerId := some "cus_1", stripeSubscriptionId := some "sub_2",
         planId := some "pro", status := "active", trialStart := some 0,
         trialEnd := some 259200000 }] ∧
    mapSubscriptionStatus "canceled" ≠ "active" := by
  constructor
  · decide
  · decide

/-- C3 (amended): the `subscription updated` handler maps the external
status by the claimed table (plus `cancelled → canceled`) and applies it
to the row located by external subscription id, with a missing row a
logged no-op; but the `subscription created` handler never reads the
external status (it always writes `status = 'active'`) and locates the row
by external *customer* id, and the second webhook router file keeps a
different mapping. -/
theorem C3_subscriptionUpdated_mapping :
    (mapSubscriptionStatus "active" = "active" ∧
     mapSubscriptionStatus "past_due" = "past_due" ∧
     mapSubscriptionStatus "canceled" = "canceled" ∧
     mapSubscriptionStatus "cancelled" = "canceled" ∧
     mapSubscriptionStatus "incomplete" = "expired" ∧
     mapSubscriptionStatus "incomplete_expired" = "expired" ∧
     mapSubscriptionStatus "trialing" = "trial" ∧
     mapSubscriptionStatus "unpaid" = "expired") ∧
    (∀ st : String,
      st ∉ (["active", "past_due", "canceled", "cancelled", "incomplete",
             "incomplete_expired", "trialing", "unpaid"] : List String) →
      mapSubscriptionStatus st = "expired") ∧
    (∀ (store : List UserSubscription) (subId extStatus : String),
      lastMatch? (fun s => s.stripeSubscriptionId == some subId) store =
          none →
      handleSubscriptionUpdated store subId extStatus = store) ∧
    (∀ (store : List UserSubscription) (subId extStatus : String)
        (s : UserSubscription),
      lastMatch? (fun t => t.stripeSubscriptionId == some subId) store =
          some s →
      handleSubscriptionUpdated store subId extStatus =
        updateById s.id
          (fun r => { r with status := mapSubscriptionStatus extStatus })
          store) := by
  refine ⟨by decide, ?_, ?_, ?_⟩
  · intro st h
    simp only [List.mem_cons, List.not_mem_nil, or_false, not_or] at h
    obtain ⟨h1, h2, h3, h4, h5, h6, h7, h8⟩ := h
    unfold mapSubscriptionStatus
    split <;> simp_all
  · intro store subId extStatus h
    unfold handleSubscriptionUpdated
    rw [h]
  · intro store subId extStatus s h
    unfold handleSubscriptionUpdated
    rw [h]

/-- Witness for C3: an unknown external status maps to `expired`, and a
store with no row for the event's subscription id is left unchanged. -/
theorem C3_witness :
    mapSubscriptionStatus "paused" = "expired" ∧
    handleSubscriptionUpdated
      [{ id := 1, uid := some "u1", deviceId := none,
         stripeCustomerId := some "cus_1", stripeSubscriptionId := some "sub_1",
         planId := none, status := "active", trialStart := none,
         trialEnd := none }] "sub_miss" "canceled" =
      [{ id := 1, uid := some "u1", deviceId := none,
         stripeCustomerId := some "cus_1", stripeSubscriptionId := some "sub_1",
         planId := none, status := "active", trialStart := none,
         trialEnd := none }] :=
  ⟨C3_subscriptionUpdated_mapping.2.1 "paused" (by decide),
   C3_subscriptionUpdated_mapping.2.2.1
     [{ id := 1, uid := some "u1", deviceId := none,
        stripeCustomerId := some "cus_1", stripeSubscriptionId := some "sub_1",
        planId := none, status := "active", trialStart := none,
        trialEnd := none }] "sub_miss" "canceled" (by decide)⟩

theorem lastMatch?_updateById (p : UserSubscription → Bool) (i : Nat)
    (g : UserSubscription → UserSubscription)
    (hg : ∀ t, p (g t) = p t) (l : List UserSubscription) :
    lastMatch? p (updateById i g l) =
      (lastMatch? p l).map (fun s => if s.id = i then g s else s) := by
  unfold updateById
  apply lastMatch?_map
  intro a
  by_cases ha : a.id = i
  · simp [ha, hg]
  · simp [ha]

theorem lastMatch?_updateById_found (p : UserSubscription → Bool)
    (g : UserSubscription → UserSubscription) (hg : ∀ t, p (g t) = p t)
    (store : List UserSubscription) (s : UserSubscription)
    (hfound : lastMatch? p store = some s) :
    lastMatch? p (updateById s.id g store) = some (g s) := by
  rw [lastMatch?_updateById p s.id g hg, hfound]
  simp

theorem updateById_update_idem (g : UserSubscription → UserSubscription)
    (hid : ∀ t, (g t).id = t.id) (hgg : ∀ t, g (g t) = g t)
    (store : List UserSubscription) (s : UserSubscription) :
    updateById (g s).id g (updateById s.id g store) =
      updateById s.id g store := by
  rw [hid s]
  exact updateById_idem s.id g hid hgg store

theorem append_fresh_facts (p : UserSubscription → Bool)
    (g : UserSubscription → UserSubscription)
    (store : List UserSubscription) (x : UserSubscription)
    (hpx : p x = true) (hgx : g x = x)
    (hxfresh : x.id = freshId (store.map UserSubscription.id)) :
    lastMatch? p (store ++ [x]) = some x ∧
    updateById x.id g (store ++ [x]) = store ++ [x] := by
  constructor
  · rw [lastMatch?_append_single, if_pos hpx]
  · apply updateById_eq_self
    intro t ht htid
    rcases List.mem_append.mp ht with htl | htr
    · exfalso
      have hmem : t.id ∈ store.map UserSubscription.id :=
        List.mem_map_of_mem _ htl
      have hne := freshId_not_mem t.id _ hmem
      rw [hxfresh] at htid
      exact hne htid
    · rw [List.mem_singleton] at htr
      rw [htr]
      exact hgx

theorem updateById_length (i : Nat) (g : UserSubscription → UserSubscription)
    (l : List UserSubscription) :
    (updateById i g l).length = l.length := by
  unfold updateById
  exact List.length_map l _

theorem handleCheckout_uid_found (devices : List Device)
    (store : List UserSubscription) (u : String) (gOpt : Option Nat)
    (cust subId : Option String) (s : UserSubscription)
    (h : lastMatch? (fun t => t.uid == some u) store = some s) :
    handleCheckoutSessionCompleted devices store ⟨some u, gOpt, cust, subId⟩ =
      updateById s.id (applyCheckout cust subId) store := by
  have e : handleCheckoutSessionCompleted devices store
      ⟨some u, gOpt, cust, subId⟩ =
      match lastMatch? (fun t => t.uid == some u) store with
      | some s => updateById s.id (applyCheckout cust subId) store
      | none => store ++ [newUidSub u cust subId
          (freshId (store.map UserSubscription.id))] := rfl
  rw [e, h]

theorem handleCheckout_uid_none (devices : List Device)
    (store : List UserSubscription) (u : String) (gOpt : Option Nat)
    (cust subId : Option String)
    (h : lastMatch? (fun t => t.uid == some u) store = none) :
    handleCheckoutSessionCompleted devices store ⟨some u, gOpt, cust, subId⟩ =
      store ++ [newUidSub u cust subId
        (freshId (store.map UserSubscription.id))] := by
  have e : handleCheckoutSessionCompleted devices store
      ⟨some u, gOpt, cust, subId⟩ =
      match lastMatch? (fun t => t.uid == some u) store with
      | some s => updateById s.id (applyCheckout cust subId) store
      | none => store ++ [newUidSub u cust subId
          (freshId (store.map UserSubscription.id))] := rfl
  rw [e, h]

theorem handleCheckout_guest_eq (devices : List Device)
    (store : List UserSubscription) (g : Nat) (cust subId : Option String) :
    handleCheckoutSessionCompleted devices store ⟨none, some g, cust, subId⟩ =
      match lastMatch? (fun d => d.id == g) devices with
      | some d =>
        match lastMatch? (fun t => t.deviceId == some d.id) store with
        | some s => updateById s.id (applyCheckout cust subId) store
        | none => store ++ [newDeviceSub d.id cust subId
            (freshId (store.map UserSubscription.id))]
      | none => store := rfl

theorem handleSubUpdated_found (store : List UserSubscription)
    (subId extStatus : String) (s : UserSubscription)
    (h : lastMatch? (fun t => t.stripeSubscriptionId == some subId) store =
      some s) :
    handleSubscriptionUpdated store subId extStatus =
      updateById s.id
        (fun r => { r with status := mapSubscriptionStatus extStatus })
        store := by
  unfold handleSubscriptionUpdated
  rw [h]

theorem handleSubUpdated_none (store : List UserSubscription)
    (subId extStatus : String)
    (h : lastMatch? (fun t => t.stripeSubscriptionId == some subId) store =
      none) :
    handleSubscriptionUpdated store subId extStatus = store := by
  unfold handleSubscriptionUpdated
  rw [h]

theorem handleCheckout_uid_eq (devices : List Device)
    (store : List UserSubscription) (u : String) (gOpt : Option Nat)
    (cust subId : Option String) :
    handleCheckoutSessionCompleted devices store ⟨some u, gOpt, cust, subId⟩ =
      match lastMatch? (fun t => t.uid == some u) store with
      | some s => updateById s.id (applyCheckout cust subId) store
      | none => store ++ [newUidSub u cust subId
          (freshId (store.map UserSubscription.id))] := rfl

/-- C4: replaying the same billing event is idempotent.  Processing an
identical `checkout.session.completed` event a second time finds the row
written by the first run and rewrites the same field values, creating no
second row; replaying `customer.subscription.updated` re-applies the same
mapped status to the same row located by subscription id; and
`handleSubscriptionUpdated` never changes the number of rows, so a
replayed `subscription updated → canceled` leaves exactly the rows that
were already there, the target one in status `canceled`. -/
theorem C4_replay_idempotent :
    (∀ (devices : List Device) (store : List UserSubscription)
        (sess : CheckoutSession),
      handleCheckoutSessionCompleted devices
          (handleCheckoutSessionCompleted devices store sess) sess =
        handleCheckoutSessionCompleted devices store sess) ∧
    (∀ (store : List UserSubscription) (subId extStatus : String),
      handleSubscriptionUpdated
          (handleSubscriptionUpdated store subId extStatus) subId
          extStatus =
        handleSubscriptionUpdated store subId extStatus) ∧
    (∀ (store : List UserSubscription) (subId extStatus : String),
      (handleSubscriptionUpdated store subId extStatus).length =
        store.length) := by
  refine ⟨?_, ?_, ?_⟩
  · intro devices store sess
    obtain ⟨uOpt, gOpt, cust, subId⟩ := sess
    cases uOpt with
    | some u =>
      cases hfound : lastMatch? (fun t => t.uid == some u) store with
      | some s =>
        have h2 : lastMatch? (fun t => t.uid == some u)
            (updateById s.id (applyCheckout cust subId) store) =
            some (applyCheckout cust subId s) :=
          lastMatch?_updateById_found (fun t => t.uid == some u)
            (applyCheckout cust subId) (fun t => rfl) store s hfound
        simp only [handleCheckout_uid_eq, hfound, h2]
        exact updateById_update_idem (applyCheckout cust subId)
          (fun t => rfl) (fun t => rfl) store s
      | none =>
        have hfacts := append_fresh_facts (fun t => t.uid == some u)
          (applyCheckout cust subId) store
          (newUidSub u cust subId (freshId (store.map UserSubscription.id)))
          (by simp [newUidSub]) rfl rfl
        simp only [handleCheckout_uid_eq, hfound, hfacts.1]
        exact hfacts.2
    | none =>
      cases gOpt with
      | none => rfl
      | some g =>
        cases hdev : lastMatch? (fun d => d.id == g) devices with
        | none => simp only [handleCheckout_guest_eq, hdev]
        | some d =>
          cases hfound : lastMatch? (fun t => t.deviceId == some d.id) store
              with
          | some s =>
            have h2 : lastMatch? (fun t => t.deviceId == some d.id)
                (updateById s.id (applyCheckout cust subId) store) =
                some (applyCheckout cust subId s) :=
              lastMatch?_updateById_found (fun t => t.deviceId == some d.id)
                (applyCheckout cust subId) (fun t => rfl) store s hfound
            simp only [handleCheckout_guest_eq, hdev, hfound, h2]
            exact updateById_update_idem (applyCheckout cust subId)
              (fun t => rfl) (fun t => rfl) store s
          | none =>
            have hfacts := append_fresh_facts
              (fun t => t.deviceId == some d.id) (applyCheckout cust subId)
              store
              (newDeviceSub d.id cust subId
                (freshId (store.map UserSubscription.id)))
              (by simp [newDeviceSub]) rfl rfl
            simp only [handleCheckout_guest_eq, hdev, hfound, hfacts.1]
            exact hfacts.2
  · intro store subId extStatus
    cases hfound : lastMatch?
        (fun t => t.stripeSubscriptionId == some subId) store with
    | none =>
      rw [handleSubUpdated_none store subId extStatus hfound]
      exact handleSubUpdated_none store subId extStatus hfound
    | some s =>
      have h2 := lastMatch?_updateById_found
        (fun t => t.stripeSubscriptionId == some subId)
        (fun r => { r with status := mapSubscriptionStatus extStatus })
        (fun t => rfl) store s hfound
      rw [handleSubUpdated_found store subId extStatus s hfound]
      rw [handleSubUpdated_found _ subId extStatus _ h2]
      exact updateById_update_idem
        (fun r => { r with status := mapSubscriptionStatus extStatus })
        (fun t => rfl) (fun t => rfl) store s
  · intro store subId extStatus
    cases hfound : lastMatch?
        (fun t => t.stripeSubscriptionId == some subId) store with
    | none => rw [handleSubUpdated_none store subId extStatus hfound]
    | some s =>
      rw [handleSubUpdated_found store subId extStatus s hfound]
      exact updateById_length _ _ _

/-- C5: a `checkout.session.completed` event for an identity whose current
record is in an active trial updates that record in place: the
`subscriptionData` partial update sets `status = 'active'` (and the
billing references) but touches neither `trial_start` nor `trial_end`, so
a subsequent resolve still reports the original `trial_end`. -/
theorem C5_checkout_preserves_trial (devices : List Device)
    (store : List UserSubscription) (u : String) (gOpt : Option Nat)
    (cust subId : Option String) (s : UserSubscription) (te now : Int)
    (hfound : lastMatch? (fun t => t.uid == some u) store = some s)
    (hstatus : s.status = "trial") (hte : s.trialEnd = some te)
    (hnow : now < te) :
    lastMatch? (fun t => t.uid == some u)
        (handleCheckoutSessionCompleted devices store
          ⟨some u, gOpt, cust, subId⟩) =
      some (applyCheckout cust subId s) ∧
    (applyCheckout cust subId s).status = "active" ∧
    (applyCheckout cust subId s).trialStart = s.trialStart ∧
    (applyCheckout cust subId s).trialEnd = some te ∧
    UserSubscription.getSubscriptionStatus (applyCheckout cust subId s)
      now = "active" := by
  refine ⟨?_, rfl, rfl, hte, ?_⟩
  · rw [handleCheckout_uid_found devices store u gOpt cust subId s hfound]
    exact lastMatch?_updateById_found (fun t => t.uid == some u)
      (applyCheckout cust subId) (fun t => rfl) store s hfound
  · simp [UserSubscription.getSubscriptionStatus,
      UserSubscription.isActive, applyCheckout]

/-- Witness for C5: a concrete mid-trial record (trial end two days out)
hit by a checkout-completed event. -/
theorem C5_witness :
    lastMatch? (fun t => t.uid == some "u1")
        (handleCheckoutSessionCompleted []
          [{ id := 1, uid := some "u1", deviceId := none,
             stripeCustomerId := none, stripeSubscriptionId := none,
             planId := none, status := "trial", trialStart := some 0,
             trialEnd := some 259200000 }]
          ⟨some "u1", none, some "cus_1", some "sub_1"⟩) =
      some (applyCheckout (some "cus_1") (some "sub_1")
        { id := 1, uid := some "u1", deviceId := none,
          stripeCustomerId := none, stripeSubscriptionId := none,
          planId := none, status := "trial", trialStart := some 0,
          trialEnd := some 259200000 }) ∧
    (applyCheckout (some "cus_1") (some "sub_1")
      { id := 1, uid := some "u1", deviceId := none,
        stripeCustomerId := none, stripeSubscriptionId := none,
        planId := none, status := "trial", trialStart := some 0,
        trialEnd := some 259200000 }).status = "active" ∧
    (applyCheckout (some "cus_1") (some "sub_1")
      { id := 1, uid := some "u1", deviceId := none,
        stripeCustomerId := none, stripeSubscriptionId := none,
        planId := none, status := "trial", trialStart := some 0,
        trialEnd := some 259200000 }).trialStart =
      UserSubscription.trialStart
        { id := 1, uid := some "u1", deviceId := none,
          stripeCustomerId := none, stripeSubscriptionId := none,
          planId := none, status := "trial", trialStart := some 0,
          trialEnd := some 259200000 } ∧
    (applyCheckout (some "cus_1") (some "sub_1")
      { id := 1, uid := some "u1", deviceId := none,
        stripeCustomerId := none, stripeSubscriptionId := none,
        planId := none, status := "trial", trialStart := some 0,
        trialEnd := some 259200000 }).trialEnd = some 259200000 ∧
    UserSubscription.getSubscriptionStatus
      (applyCheckout (some "cus_1") (some "sub_1")
        { id := 1, uid := some "u1", deviceId := none,
          stripeCustomerId := none, stripeSubscriptionId := none,
          planId := none, status := "trial", trialStart := some 0,
          trialEnd := some 259200000 }) 86400000 = "active" :=
  C5_checkout_preserves_trial []
    [{ id := 1, uid := some "u1", deviceId := none,
       stripeCustomerId := none, stripeSubscriptionId := none,
       planId := none, status := "trial", trialStart := some 0,
       trialEnd := some 259200000 }]
    "u1" none (some "cus_1") (some "sub_1")
    { id := 1, uid := some "u1", deviceId := none,
      stripeCustomerId := none, stripeSubscriptionId := none,
      planId := none, status := "trial", trialStart := some 0,
      trialEnd := some 259200000 }
    259200000 86400000 (by decide) rfl rfl (by decide)

theorem startTrial_eq (now : Int) (st : PaywallState) (f : String) :
    startTrial now st f =
      match lastMatch? (fun d => d.deviceId == Device.hashDeviceId f)
          st.devices with
      | some d => (st, d.toPublicJSON now)
      | none =>
        let d : Device :=
          { id := freshId (st.devices.map Device.id)
            deviceId := Device.hashDeviceId f
            linkedUid := none
            trialStart := some now
            trialEnd := some (now + 3 * msPerDay)
            subscriptionStatus := "trial" }
        let sub : UserSubscription :=
          { id := freshId (st.subs.map UserSubscription.id)
            uid := none, deviceId := some d.id
            stripeCustomerId := none, stripeSubscriptionId := none
            planId := none, status := "trial"
            trialStart := some now, trialEnd := some (now + 3 * msPerDay) }
        ({ devices := st.devices ++ [d], subs := st.subs ++ [sub] },
          d.toPublicJSON now) := rfl

/-- C6: calling `startTrial` a second time for the same fingerprint finds
the device written (or found) by the first call and returns its view
without writing anything: the state is unchanged and the returned guest id
and trial bounds equal the first call's. -/
theorem C6_startTrial_idempotent (now1 now2 : Int) (st : PaywallState)
    (f : String) :
    (startTrial now2 (startTrial now1 st f).1 f).1 =
      (startTrial now1 st f).1 ∧
    (startTrial now2 (startTrial now1 st f).1 f).2.guestId =
      (startTrial now1 st f).2.guestId ∧
    (startTrial now2 (startTrial now1 st f).1 f).2.trialStart =
      (startTrial now1 st f).2.trialStart ∧
    (startTrial now2 (startTrial now1 st f).1 f).2.trialEnd =
      (startTrial now1 st f).2.trialEnd := by
  cases hdev : lastMatch? (fun d => d.deviceId == Device.hashDeviceId f)
      st.devices with
  | some d =>
    simp only [startTrial_eq, hdev]
    refine ⟨?_, ?_, ?_, ?_⟩ <;> trivial
  | none =>
    have h2 : lastMatch? (fun d => d.deviceId == Device.hashDeviceId f)
        (st.devices ++
          [{ id := freshId (st.devices.map Device.id)
             deviceId := Device.hashDeviceId f
             linkedUid := none
             trialStart := some now1
             trialEnd := some (now1 + 3 * msPerDay)
             subscriptionStatus := "trial" }]) =
        some
          { id := freshId (st.devices.map Device.id)
            deviceId := Device.hashDeviceId f
            linkedUid := none
            trialStart := some now1
            trialEnd := some (now1 + 3 * msPerDay)
            subscriptionStatus := "trial" } := by
      rw [lastMatch?_append_single]
      simp
    simp only [startTrial_eq, hdev, h2]
    refine ⟨?_, ?_, ?_, ?_⟩ <;> trivial

theorem redeemLicenseRoute_uid_eq (devices : List Device) (u : String)
    (guestId : Option Nat) (now : Int) (k : LicenseKey) :
    redeemLicenseRoute devices (some u) guestId now k =
      if !k.isValidForRedemption now then
        Except.error (if k.isRedeemed then
          "License key has already been redeemed"
          else "License key has expired")
      else k.redeem now (some u) none := rfl

theorem redeemLicenseRoute_guest_eq (devices : List Device) (g : Nat)
    (now : Int) (k : LicenseKey) :
    redeemLicenseRoute devices none (some g) now k =
      if !k.isValidForRedemption now then
        Except.error (if k.isRedeemed then
          "License key has already been redeemed"
          else "License key has expired")
      else
        match lastMatch? (fun d => d.id == g) devices with
        | some d => k.redeem now none (some d.id)
        | none => Except.error "Invalid guest ID" := rfl

theorem redeemLicenseRoute_none_eq (devices : List Device) (now : Int)
    (k : LicenseKey) :
    redeemLicenseRoute devices none none now k =
      if !k.isValidForRedemption now then
        Except.error (if k.isRedeemed then
          "License key has already been redeemed"
          else "License key has expired")
      else Except.error "Either authentication or guest_id required" := rfl

theorem redeem_ok_shape (k : LicenseKey) (now : Int) (bu : Option String)
    (bd : Option Nat) (k2 : LicenseKey)
    (h : k.redeem now bu bd = Except.ok k2) :
    k2 = k.redeemWrite now bu bd := by
  unfold LicenseKey.redeem at h
  by_cases h1 : k.isRedeemed
  · rw [if_pos h1] at h
    exact Except.noConfusion h
  · rw [if_neg h1] at h
    by_cases h2 : k.isExpired now
    · rw [if_pos h2] at h
      exact Except.noConfusion h
    · rw [if_neg h2] at h
      simp only [Except.ok.injEq] at h
      exact h.symm

theorem applyLicenseOp_preserves_atMostOneBound (k : LicenseKey)
    (op : LicenseOp) (h : atMostOneBound k) :
    atMostOneBound (applyLicenseOp k op) := by
  cases op with
  | revokeOp now =>
    exact Or.inl rfl
  | redeemOp devices uid guestId now =>
    simp only [applyLicenseOp]
    cases hr : redeemLicenseRoute devices uid guestId now k with
    | error e => exact h
    | ok k2 =>
      show atMostOneBound k2
      cases uid with
      | some u =>
        rw [redeemLicenseRoute_uid_eq] at hr
        by_cases hv : !k.isValidForRedemption now
        · rw [if_pos hv] at hr
          exact Except.noConfusion hr
        · rw [if_neg hv] at hr
          rw [redeem_ok_shape k now (some u) none k2 hr]
          exact Or.inr rfl
      | none =>
        cases guestId with
        | some g =>
          rw [redeemLicenseRoute_guest_eq] at hr
          by_cases hv : !k.isValidForRedemption now
          · rw [if_pos hv] at hr
            exact Except.noConfusion hr
          · rw [if_neg hv] at hr
            cases hdev : lastMatch? (fun d => d.id == g) devices with
            | some d =>
              rw [hdev] at hr
              rw [redeem_ok_shape k now none (some d.id) k2 hr]
              exact Or.inl rfl
            | none =>
              rw [hdev] at hr
              exact Except.noConfusion hr
        | none =>
          rw [redeemLicenseRoute_none_eq] at hr
          by_cases hv : !k.isValidForRedemption now
          · rw [if_pos hv] at hr
            exact Except.noConfusion hr
          · rw [if_neg hv] at hr
            exact Except.noConfusion hr

/-- C10: every license-key row keeps at most one of `bound_uid` and
`bound_device_id` non-null under any sequence of redeem/revoke operations
(keys are created with both null); a successful redemption with an
authenticated uid binds exactly that uid and leaves the device binding
null, even when a `guest_id` is also presented; and `revoke` nulls both
bindings. -/
theorem C10_binding_invariant :
    (∀ (k : LicenseKey) (ops : List LicenseOp), atMostOneBound k →
      atMostOneBound (runLicenseOps k ops)) ∧
    (∀ (devices : List Device) (u : String) (guestId : Option Nat)
        (now : Int) (k : LicenseKey), k.isValidForRedemption now = true →
      redeemLicenseRoute devices (some u) guestId now k =
        Except.ok (k.redeemWrite now (some u) none) ∧
      (k.redeemWrite now (some u) none).boundUid = some u ∧
      (k.redeemWrite now (some u) none).boundDeviceId = none) ∧
    (∀ (k : LicenseKey) (now : Int),
      (k.revoke now).boundUid = none ∧
        (k.revoke now).boundDeviceId = none) := by
  refine ⟨?_, ?_, ?_⟩
  · intro k ops h
    induction ops generalizing k with
    | nil => exact h
    | cons op rest ih =>
      exact ih (applyLicenseOp k op)
        (applyLicenseOp_preserves_atMostOneBound k op h)
  · intro devices u guestId now k hv
    have hred : k.isRedeemed = false := by
      unfold LicenseKey.isValidForRedemption at hv
      simp only [Bool.and_eq_true, Bool.not_eq_true'] at hv
      exact hv.1
    have hexp : k.isExpired now = false := by
      unfold LicenseKey.isValidForRedemption at hv
      simp only [Bool.and_eq_true, Bool.not_eq_true'] at hv
      exact hv.2
    refine ⟨?_, rfl, rfl⟩
    simp [redeemLicenseRoute_uid_eq, LicenseKey.redeem, hv, hred, hexp]
  · intro k now
    exact ⟨rfl, rfl⟩

/-- Witness for C10: a fresh key run through a redeem (uid and guest both
presented) and then a revoke keeps the invariant; hypotheses discharged at
concrete values. -/
theorem C10_witness :
    atMostOneBound (runLicenseOps
      { id := 1, planId := "pro", expiresAt := none, singleUse := true,
        boundUid := none, boundDeviceId := none, redeemedAt := none }
      [LicenseOp.redeemOp
        [{ id := 4, deviceId := "fp", linkedUid := none,
           trialStart := some 0, trialEnd := some 259200000,
           subscriptionStatus := "trial" }]
        (some "user_1") (some 4) 10,
       LicenseOp.revokeOp 20]) :=
  C10_binding_invariant.1
    { id := 1, planId := "pro", expiresAt := none, singleUse := true,
      boundUid := none, boundDeviceId := none, redeemedAt := none }
    [LicenseOp.redeemOp
      [{ id := 4, deviceId := "fp", linkedUid := none,
         trialStart := some 0, trialEnd := some 259200000,
         subscriptionStatus := "trial" }]
      (some "user_1") (some 4) 10,
     LicenseOp.revokeOp 20]
    (Or.inl rfl)
